import Mathlib

/-!
Shallow embedding of the nimiq-validator-activator-go repository.

The embedded code is `cmd/main.go` (the validator lifecycle controller) together
with the prometheus gauge registry (`prometheus/prometheus.go`).  The JSON-RPC
client (`rpc/client.go`), the key files under `/keys`, and the faucet are the
program's external collaborators; they are modelled as a per-tick oracle
(`ClientEnv`) whose fields hold the result each call would return during the
evaluation under study, with `none` standing for the Go `error` return.

Prometheus gauges are absolute numeric cells keyed by the validator address;
since the program only ever uses one address, the registry is modelled as a
record of integer cells (`Metrics`).  `Gauge.Set x` becomes a record update and
`Gauge.Inc` becomes `+ 1` on the corresponding field.

The Go `strings` package functions used by the key-file parsers
(`Split`, `HasPrefix`, `TrimPrefix`, `TrimSpace`, `Contains`) are implemented
here as structural recursions over the character list so that every definition
evaluates on concrete inputs.
-/

namespace NimiqActivator

/-- Go `strings.Split(s, sep)` for a one-character separator, accumulator form:
walks the characters, cutting at each separator occurrence. -/
def stringsSplitAux (sep : Char) : List Char → List Char → List String
  | [], acc => [String.mk acc.reverse]
  | c :: cs, acc =>
    if c = sep then String.mk acc.reverse :: stringsSplitAux sep cs []
    else stringsSplitAux sep cs (c :: acc)

/-- Go `strings.Split(s, sep)` for a one-character separator (the source only
splits on `"\n"`).  Like Go, it returns one (possibly empty) field per
separator occurrence plus one trailing field. -/
def stringsSplit (s : String) (sep : Char) : List String :=
  stringsSplitAux sep s.data []

/-- Go `strings.HasPrefix`. -/
def stringsHasPrefix (s pre : String) : Bool :=
  pre.data.isPrefixOf s.data

/-- Go `strings.TrimPrefix`: removes `pre` from the front of `s` when present,
otherwise returns `s` unchanged. -/
def stringsTrimPrefix (s pre : String) : String :=
  if stringsHasPrefix s pre then String.mk (s.data.drop pre.data.length) else s

/-- Go `strings.TrimSpace`: strips leading and trailing whitespace. -/
def stringsTrimSpace (s : String) : String :=
  String.mk (((s.data.dropWhile Char.isWhitespace).reverse.dropWhile Char.isWhitespace).reverse)

/-- Substring occurrence test on character lists (helper for `stringsContains`). -/
def containsAux (sub : List Char) : List Char → Bool
  | [] => sub.isEmpty
  | c :: cs => sub.isPrefixOf (c :: cs) || containsAux sub cs

/-- Go `strings.Contains`. -/
def stringsContains (s sub : String) : Bool :=
  containsAux sub.data s.data

/-- The parsed validator record returned by the `getValidatorByAddress` RPC
(struct `rpc.ValidatorDetails` in the source).  `JailedFrom` and
`InactivityFlag` are nullable in the JSON and therefore `Option`s here. -/
structure ValidatorDetails where
  address : String
  balance : Int
  numStakers : Int
  inactivityFlag : Option Int
  retired : Bool
  jailedFrom : Option Int
deriving DecidableEq, Repr

/-- One tick's view of the external collaborators: each field is the result the
corresponding `rpc.Client` call, key-file read, or configuration lookup would
produce during the evaluation under study.  `none` models the Go `error`
return of the call.  `isConsensusEstablished` is indexed by the attempt
number of `checkConsensus`. -/
structure ClientEnv where
  isConsensusEstablished : Nat → Option Bool
  getEpochNumber : Option Int
  getAccountBalanceByAddress : String → Option Int
  getValidatorByAddress : String → Option ValidatorDetails
  getCurrentBlockNumber : Option Int
  importRawKey : String → String → Option String
  unlockAccount : String → String → Nat → Option Unit
  sendNewValidatorTransaction : String → String → String → String → String → String → Nat → String → Option String
  sendRawTransaction : String → Option String
  sendReactivateValidatorTransaction : String → String → String → Nat → String → Option String
  readFile : String → Option String
  network : String

/-- The prometheus registry restricted to the single validator address the
program supervises: one integer cell per gauge/counter that the lifecycle
code writes.  Every value the Go code passes to `Set` on these gauges is an
integer, so the cells are `Int`. -/
structure Metrics where
  epochNumber : Int
  totalStake : Int
  numStakers : Int
  inactivityFlag : Int
  retired : Int
  jailedFrom : Int
  jailed : Int
  activated : Int
  activatedCounter : Int
  reActivatedCounter : Int
  balanceGauge : Int
deriving DecidableEq, Repr

/-- All-zero metric registry, the state before anything is published. -/
def Metrics.init : Metrics :=
  { epochNumber := 0, totalStake := 0, numStakers := 0, inactivityFlag := 0,
    retired := 0, jailedFrom := 0, jailed := 0, activated := 0,
    activatedCounter := 0, reActivatedCounter := 0, balanceGauge := 0 }

/-- Corrective actions the controller can invoke during one evaluation. -/
inductive Action where
  | activate
  | reactivate
  | fund
deriving DecidableEq, Repr

/-- The individual steps of the `activateValidator` / `reActivateValidator`
procedures, in the order the source attempts them. -/
inductive Step where
  | getSigningKey
  | getVoteKey
  | getAddressKey
  | importRawKey
  | unlockAccount
  | sendNewValidatorTx
  | sendRawTx
  | sendReactivateTx
deriving DecidableEq, Repr

/-- The `maxAttempts` constant of `checkConsensus`. -/
def maxAttempts : Nat := 3

/-- The `for attempt := 1; attempt <= maxAttempts` loop of `checkConsensus`:
`remaining` counts the loop iterations still allowed
(`maxAttempts - attempt + 1`), `successfulChecks` is the running counter of
the source.  Besides the boolean result it returns the number of consensus
checks actually performed, so that fail-fast behaviour is observable. -/
def consensusAttempts (client : ClientEnv) (attempt : Nat) (remaining : Nat)
    (successfulChecks : Nat) : Bool × Nat :=
  match remaining with
  | 0 => (successfulChecks == maxAttempts, attempt - 1)
  | r + 1 =>
    match client.isConsensusEstablished attempt with
    | none => (false, attempt)
    | some false => (false, attempt)
    | some true =>
      consensusAttempts client (attempt + 1) r (successfulChecks + 1)

/-- Function `checkConsensus` of `cmd/main.go`: result plus number of checks
performed.  Any query error returns false immediately; a false consensus
report returns false immediately; only three consecutive `true` reports make
`successfulChecks == maxAttempts` hold after the loop. -/
def checkConsensus (client : ClientEnv) : Bool × Nat :=
  consensusAttempts client 1 maxAttempts 0

/-- The line scan of `getPrivateKey`: first line starting with
"Private Key:" yields the trimmed remainder, otherwise the error return. -/
def getPrivateKeyLines : List String → Option String
  | [] => none
  | line :: rest =>
    if stringsHasPrefix line "Private Key:" then
      some (stringsTrimSpace (stringsTrimPrefix line "Private Key:"))
    else
      getPrivateKeyLines rest

/-- Function `getPrivateKey` of `cmd/main.go`: read the file, split into lines
on `"\n"`, and return the trimmed remainder of the first line starting with
"Private Key:"; `none` is the Go error return (unreadable file or no such
line). -/
def getPrivateKey (client : ClientEnv) (filePath : String) : Option String :=
  match client.readFile filePath with
  | none => none
  | some content => getPrivateKeyLines (stringsSplit content '\n')

/-- The indexed line scan of `getVoteKey`: `lines` is the full line list,
the second argument the suffix still to scan, `i` its start index.  A line
containing "Secret Key:" with at least two following lines yields the
trimmed line two below it. -/
def getVoteKeyAux (lines : List String) : List String → Nat → Option String
  | [], _ => none
  | line :: rest, i =>
    if stringsContains line "Secret Key:" && decide (i + 2 < lines.length) then
      some (stringsTrimSpace (lines.getD (i + 2) ""))
    else
      getVoteKeyAux lines rest (i + 1)

/-- Function `getVoteKey` of `cmd/main.go`: read the file, split into lines,
and return the trimmed line two lines below the first "Secret Key:" label
that has two lines below it; `none` is the Go error return. -/
def getVoteKey (client : ClientEnv) (filePath : String) : Option String :=
  match client.readFile filePath with
  | none => none
  | some content =>
    getVoteKeyAux (stringsSplit content '\n') (stringsSplit content '\n') 0

/-- The step order of `activateValidator`. -/
def activationSteps : List Step :=
  [Step.getSigningKey, Step.getVoteKey, Step.getAddressKey, Step.importRawKey,
   Step.unlockAccount, Step.sendNewValidatorTx, Step.sendRawTx]

/-- Function `activateValidator` of `cmd/main.go`: resolve the signing, voting
and account secrets, import the account secret, unlock the account for zero
duration, build the new-validator transaction (fee 500, validity "+0"),
and submit the raw transaction; only after a successful submission set the
activated gauge to 1 and increment the activation counter.  Besides the Go
boolean result it returns the metric state and the steps attempted in
order. -/
def activateValidator (client : ClientEnv) (address : String) (m : Metrics) :
    Bool × Metrics × List Step :=
  match getPrivateKey client "/keys/signing_key.txt" with
  | none => (false, m, [Step.getSigningKey])
  | some sigKey =>
    match getVoteKey client "/keys/vote_key.txt" with
    | none => (false, m, [Step.getSigningKey, Step.getVoteKey])
    | some voteKey =>
      match getPrivateKey client "/keys/address.txt" with
      | none => (false, m, [Step.getSigningKey, Step.getVoteKey, Step.getAddressKey])
      | some addressPrivate =>
        match client.importRawKey addressPrivate "" with
        | none => (false, m,
            [Step.getSigningKey, Step.getVoteKey, Step.getAddressKey, Step.importRawKey])
        | some _ =>
          match client.unlockAccount address "" 0 with
          | none => (false, m,
              [Step.getSigningKey, Step.getVoteKey, Step.getAddressKey, Step.importRawKey,
               Step.unlockAccount])
          | some _ =>
            match client.sendNewValidatorTransaction address address sigKey voteKey address "" 500 "+0" with
            | none => (false, m,
                [Step.getSigningKey, Step.getVoteKey, Step.getAddressKey, Step.importRawKey,
                 Step.unlockAccount, Step.sendNewValidatorTx])
            | some rawTx =>
              match client.sendRawTransaction rawTx with
              | none => (false, m,
                  [Step.getSigningKey, Step.getVoteKey, Step.getAddressKey, Step.importRawKey,
                   Step.unlockAccount, Step.sendNewValidatorTx, Step.sendRawTx])
              | some _ =>
                (true,
                 { m with activated := 1, activatedCounter := m.activatedCounter + 1 },
                 activationSteps)

/-- Function `reActivateValidator` of `cmd/main.go`: signing and account
secrets (no voting secret), import, zero-duration unlock, and the
reactivate-validator transaction (fee 500, validity "+0"); on success
increment the reactivation counter. -/
def reActivateValidator (client : ClientEnv) (address : String) (m : Metrics) :
    Bool × Metrics × List Step :=
  match getPrivateKey client "/keys/signing_key.txt" with
  | none => (false, m, [Step.getSigningKey])
  | some sigKey =>
    match getPrivateKey client "/keys/address.txt" with
    | none => (false, m, [Step.getSigningKey, Step.getAddressKey])
    | some addressPrivate =>
      match client.importRawKey addressPrivate "" with
      | none => (false, m, [Step.getSigningKey, Step.getAddressKey, Step.importRawKey])
      | some _ =>
        match client.unlockAccount address "" 0 with
        | none => (false, m,
            [Step.getSigningKey, Step.getAddressKey, Step.importRawKey, Step.unlockAccount])
        | some _ =>
          match client.sendReactivateValidatorTransaction address address sigKey 500 "+0" with
          | none => (false, m,
              [Step.getSigningKey, Step.getAddressKey, Step.importRawKey, Step.unlockAccount,
               Step.sendReactivateTx])
          | some _ =>
            (true,
             { m with reActivatedCounter := m.reActivatedCounter + 1 },
             [Step.getSigningKey, Step.getAddressKey, Step.importRawKey, Step.unlockAccount,
              Step.sendReactivateTx])

/-- Function `updateValidatorMetrics` of `cmd/main.go`: publish balance
(to the total-stake gauge), staker count, inactivity flag (0 when nil),
retired flag as 0/1, jailed-from marker (0 when nil), and set the activated
gauge to 1. -/
def updateValidatorMetrics (details : ValidatorDetails) (m : Metrics) : Metrics :=
  { m with
    totalStake := details.balance,
    numStakers := details.numStakers,
    inactivityFlag := details.inactivityFlag.getD 0,
    retired := if details.retired then 1 else 0,
    jailedFrom := details.jailedFrom.getD 0,
    activated := 1 }

/-- Function `checkSufficientBalance` of `cmd/main.go`: fetch the account
balance; on error report (false, 0); otherwise publish the raw balance to
the balance gauge, and return whether `balance / 100000` is at least
100000 together with that quotient.  The Go float64 arithmetic is modelled
exactly over the rationals; on the int64 range the float comparison against
the representable threshold 100000.0 agrees with the rational one. -/
def checkSufficientBalance (client : ClientEnv) (address : String) (m : Metrics) :
    (Bool × ℚ) × Metrics :=
  match client.getAccountBalanceByAddress address with
  | none => ((false, 0), m)
  | some balance =>
    let balanceInNim : ℚ := (balance : ℚ) / 100000
    ((decide (100000 ≤ balanceInNim), balanceInNim),
     { m with balanceGauge := balance })

/-- Function `checkActive` of `cmd/main.go`: fetch the validator record;
error means false; otherwise compare the record's address with the input. -/
def checkActive (client : ClientEnv) (address : String) : Bool :=
  match client.getValidatorByAddress address with
  | none => false
  | some validatorDetails =>
    if validatorDetails.address != address then false
    else validatorDetails.address == address

/-- Function `updateEpochNumberGauge` of `cmd/main.go`: publish the epoch
number, or leave the gauge untouched on error. -/
def updateEpochNumberGauge (client : ClientEnv) (m : Metrics) : Metrics :=
  match client.getEpochNumber with
  | none => m
  | some epochNumber => { m with epochNumber := epochNumber }

/-- The `blocksForReactivation` constant (jail window) of
`checkAndHandleValidatorStatus`. -/
def blocksForReactivation : Int := 8000

/-- Function `checkAndHandleValidatorStatus` of `cmd/main.go`, the lifecycle
evaluation: fetch the validator record (on error invoke `activateValidator`
and return false, discarding its result); publish the record metrics; if
retired invoke `reActivateValidator` and return false, discarding its
result; fetch the block number (on error return false); if a jail marker is
present set the jailed gauges according to the 8000-block window; then
unconditionally zero the jailed and jailed-from gauges and return true.
Returns the Go boolean, the metric state and the corrective actions
invoked. -/
def checkAndHandleValidatorStatus (client : ClientEnv) (address : String) (m : Metrics) :
    Bool × Metrics × List Action :=
  match client.getValidatorByAddress address with
  | none =>
    let res := activateValidator client address m
    (false, res.2.1, [Action.activate])
  | some details =>
    let m1 := updateValidatorMetrics details m
    if details.retired then
      let res := reActivateValidator client address m1
      (false, res.2.1, [Action.reactivate])
    else
      match client.getCurrentBlockNumber with
      | none => (false, m1, [])
      | some currentBlockNumber =>
        let m2 :=
          match details.jailedFrom with
          | none => m1
          | some jailedFrom =>
            let blocksSinceJailed := currentBlockNumber - jailedFrom
            if blocksSinceJailed < blocksForReactivation then
              { m1 with jailed := 1, jailedFrom := jailedFrom }
            else
              { m1 with jailed := 0 }
        (true, { m2 with jailed := 0, jailedFrom := 0 }, [])

/-- One iteration of the 10-second loop body of `periodicUpdates` in
`cmd/main.go` (the balance-accumulation sub-loop): check the balance and
registration; if either is satisfied run the lifecycle evaluation (the
returned boolean is its result, which also decides whether the sub-loop
exits); otherwise, on the testnet network, issue one funding request.  The
faucet call's own outcome only affects logging. -/
def periodicUpdatesTick (client : ClientEnv) (address : String) (m : Metrics) :
    Bool × Metrics × List Action :=
  let balRes := checkSufficientBalance client address m
  let sufficient := balRes.1.1
  let m1 := balRes.2
  let isActive := checkActive client address
  if sufficient || isActive then
    checkAndHandleValidatorStatus client address m1
  else
    if client.network == "testnet" then (false, m1, [Action.fund])
    else (false, m1, [])

/-- One iteration of the 15-second main poll loop in `main` of `cmd/main.go`:
republish the epoch number, run the lifecycle evaluation, then republish
the balance gauge. -/
def mainLoopTick (client : ClientEnv) (address : String) (m : Metrics) :
    Bool × Metrics × List Action :=
  let m1 := updateEpochNumberGauge client m
  let res := checkAndHandleValidatorStatus client address m1
  let m2 := (checkSufficientBalance client address res.2.1).2
  (res.1, m2, res.2.2)

/-- Spec-worded restatement of `getPrivateKey` (spec section 6, Key files):
the whitespace-trimmed remainder of the first line of the file that starts
with "Private Key:", an error when the file is unreadable or no such line
exists.  Stated with `List.find?` so that "first line" is explicit. -/
def getPrivateKeySpec (client : ClientEnv) (filePath : String) : Option String :=
  match client.readFile filePath with
  | none => none
  | some content =>
    ((stringsSplit content '\n').find? (fun line => stringsHasPrefix line "Private Key:")).map
      (fun line => stringsTrimSpace (stringsTrimPrefix line "Private Key:"))

/-- Selection part of the spec-worded vote-key parser: given the indexed first
line containing the label, return the trimmed line two below it when it has
at least two following lines, otherwise the error return. -/
def voteSpecSelect (lines : List String) (found : Option (Nat × String)) : Option String :=
  match found with
  | none => none
  | some ji =>
    if ji.1 + 2 < lines.length then some (stringsTrimSpace (lines.getD (ji.1 + 2) ""))
    else none

/-- Spec-worded restatement of `getVoteKey` (spec section 6, Key files): the
whitespace-trimmed line two lines after the first line containing
"Secret Key:", an error when the file is unreadable or no "Secret Key:"
line with at least two following lines exists. -/
def getVoteKeySpec (client : ClientEnv) (filePath : String) : Option String :=
  match client.readFile filePath with
  | none => none
  | some content =>
    let lines := stringsSplit content '\n'
    voteSpecSelect lines
      (lines.enum.find? (fun il => stringsContains il.2 "Secret Key:"))

/-- Key files with well-formed content, for concrete evaluations. -/
def keyFilesOk : String → Option String := fun p =>
  if p = "/keys/signing_key.txt" then some "Private Key: SIGKEY"
  else if p = "/keys/vote_key.txt" then some "Secret Key:\nrandom words\nVOTEKEY\n"
  else if p = "/keys/address.txt" then some "Private Key: ADDRKEY"
  else none

/-- A healthy registered validator record at address ADDR. -/
def okDetails : ValidatorDetails :=
  { address := "ADDR", balance := 123, numStakers := 2, inactivityFlag := none,
    retired := false, jailedFrom := none }

/-- A tick in which every external call succeeds and the validator at ADDR is
registered, funded, not retired and not jailed. -/
def okClient : ClientEnv :=
  { isConsensusEstablished := fun _ => some true,
    getEpochNumber := some 7,
    getAccountBalanceByAddress := fun _ => some 10000000000,
    getValidatorByAddress := fun _ => some okDetails,
    getCurrentBlockNumber := some 5000,
    importRawKey := fun _ _ => some "ADDR",
    unlockAccount := fun _ _ _ => some (),
    sendNewValidatorTransaction := fun _ _ _ _ _ _ _ _ => some "RAWTX",
    sendRawTransaction := fun _ => some "TXHASH",
    sendReactivateValidatorTransaction := fun _ _ _ _ _ => some "TXHASH2",
    readFile := keyFilesOk,
    network := "testnet" }

/-- Same tick but the record carries a jail marker at block 100 while the
current block is 5000, i.e. well inside the 8000-block jail window. -/
def jailClient : ClientEnv :=
  { okClient with
    getValidatorByAddress := fun _ =>
      some { okDetails with jailedFrom := some 100 } }

/-- Same tick but the record is retired (and also carries a jail marker, to
exercise the "regardless of jail marker" part of the retired branch). -/
def retiredClient : ClientEnv :=
  { okClient with
    getValidatorByAddress := fun _ =>
      some { okDetails with retired := true, jailedFrom := some 5 } }

/-- A tick in which the address has no validator record and a zero balance. -/
def unregisteredPoorClient : ClientEnv :=
  { okClient with
    getValidatorByAddress := fun _ => none,
    getAccountBalanceByAddress := fun _ => some 0 }

/-- The float comparison of `checkSufficientBalance`, read over the rationals:
the quotient by the 100000 divisor reaches 100000 exactly when the raw
balance reaches 10^10 smallest units. -/
theorem balanceInNim_threshold (b : Int) :
    ((100000 : ℚ) ≤ (b : ℚ) / 100000) ↔ (10000000000 : Int) ≤ b := by
  rw [le_div_iff₀ (by norm_num : (0:ℚ) < 100000)]
  norm_cast

/-- Reactivation never writes the activated gauge: it only increments the
reactivation counter on success. -/
theorem reActivate_preserves_activated (client : ClientEnv) (address : String) (m : Metrics) :
    (reActivateValidator client address m).2.1.activated = m.activated := by
  unfold reActivateValidator
  repeat' split
  all_goals rfl

/-- The private-key line scan selects the first line starting with the
"Private Key:" label. -/
theorem getPrivateKeyLines_eq_find (ls : List String) :
    getPrivateKeyLines ls
      = (ls.find? (fun line => stringsHasPrefix line "Private Key:")).map
          (fun line => stringsTrimSpace (stringsTrimPrefix line "Private Key:")) := by
  induction ls with
  | nil => rfl
  | cons line rest ih =>
    cases hp : stringsHasPrefix line "Private Key:" with
    | false => simp [getPrivateKeyLines, List.find?, hp, ih]
    | true => simp [getPrivateKeyLines, List.find?, hp]

/-- Once fewer than two lines can follow position `i`, the vote-key scan can
no longer succeed. -/
theorem getVoteKeyAux_bound_none (L : List String) :
    ∀ (rest : List String) (i : Nat), L.length ≤ i + 2 → getVoteKeyAux L rest i = none := by
  intro rest
  induction rest with
  | nil => intro i _; rfl
  | cons line rest ih =>
    intro i h
    have hb : ¬ (i + 2 < L.length) := by omega
    simp [getVoteKeyAux, hb]
    exact ih (i + 1) (by omega)

/-- The vote-key line scan agrees with the spec-worded selection: take the
first "Secret Key:" line (by index) and require two following lines. -/
theorem getVoteKeyAux_eq_spec (L : List String) :
    ∀ (rest : List String) (i : Nat),
      getVoteKeyAux L rest i
        = voteSpecSelect L
            ((rest.enumFrom i).find? (fun il => stringsContains il.2 "Secret Key:")) := by
  intro rest
  induction rest with
  | nil => intro i; rfl
  | cons line rest ih =>
    intro i
    cases hp : stringsContains line "Secret Key:" with
    | false => simp [getVoteKeyAux, List.enumFrom, List.find?, hp, ih]
    | true =>
      by_cases hb : i + 2 < L.length
      · simp [getVoteKeyAux, List.enumFrom, List.find?, hp, hb, voteSpecSelect]
      · have hnone : getVoteKeyAux L rest (i + 1) = none :=
          getVoteKeyAux_bound_none L rest (i + 1) (by omega)
        simp [getVoteKeyAux, List.enumFrom, List.find?, hp, hb, voteSpecSelect, hnone]

/-- C1: at the claim's own scenario (record present, jailedFrom = 100, current
block 5000, so 5000 - 100 is inside the 8000-block jail window) one
lifecycle evaluation invokes neither Activate nor Reactivate, but its final
published jailed and jailed-from gauge values are 0 and 0 rather than 1 and
100: `checkAndHandleValidatorStatus` unconditionally zeroes both gauges
right before returning, overwriting what its jail-window branch just
published. -/
theorem jailWindow_final_gauges_zeroed :
    (checkAndHandleValidatorStatus jailClient "ADDR" Metrics.init).2.1.jailed = 0
    ∧ (checkAndHandleValidatorStatus jailClient "ADDR" Metrics.init).2.1.jailedFrom = 0
    ∧ (checkAndHandleValidatorStatus jailClient "ADDR" Metrics.init).2.2 = []
    ∧ (5000 - 100 : Int) < blocksForReactivation := by decide

/-- C2 counterexample: a main-poll-loop tick on which the address has no
validator record and a zero balance (strictly below the activation
threshold) still invokes the Activate procedure, because
`checkAndHandleValidatorStatus` calls `activateValidator` on every failed
record fetch without consulting the balance. -/
theorem mainLoop_activate_on_empty_balance :
    unregisteredPoorClient.getValidatorByAddress "ADDR" = none
    ∧ unregisteredPoorClient.getAccountBalanceByAddress "ADDR" = some 0
    ∧ (0 : Int) < 10000000000
    ∧ (mainLoopTick unregisteredPoorClient "ADDR" Metrics.init).2.2 = [Action.activate] := by
  decide

/-- C2 amended: on a balance-accumulation sub-loop tick with no validator
record and balance strictly below the threshold, Activate is never invoked
(only, on testnet, a funding request); on a main-poll-loop tick, however,
the lifecycle evaluation invokes Activate whenever the record fetch fails,
regardless of the balance. -/
theorem subLoop_insufficient_balance_no_activate (client : ClientEnv) (address : String)
    (m : Metrics) (b : Int)
    (hrec : client.getValidatorByAddress address = none)
    (hb : client.getAccountBalanceByAddress address = some b)
    (hlt : b < 10000000000) :
    Action.activate ∉ (periodicUpdatesTick client address m).2.2
    ∧ (mainLoopTick client address m).2.2 = [Action.activate] := by
  have hnim : ¬ ((100000 : ℚ) ≤ (b : ℚ) / 100000) := by
    rw [balanceInNim_threshold]
    omega
  constructor
  · by_cases hn : client.network == "testnet" <;>
      simp [periodicUpdatesTick, checkSufficientBalance, hb, checkActive, hrec, hnim, hn]
  · simp [mainLoopTick, checkAndHandleValidatorStatus, hrec]

/-- C2 witness: the amended statement at the concrete unregistered, unfunded
tick. -/
theorem subLoop_insufficient_balance_no_activate_witness :
    Action.activate ∉ (periodicUpdatesTick unregisteredPoorClient "ADDR" Metrics.init).2.2
    ∧ (mainLoopTick unregisteredPoorClient "ADDR" Metrics.init).2.2 = [Action.activate] :=
  subLoop_insufficient_balance_no_activate unregisteredPoorClient "ADDR" Metrics.init 0
    rfl rfl (by decide)

/-- C3: the consensus gate reports true exactly when all three consensus
checks report established consensus; the first erring or false check makes
it report false having performed only the checks up to and including that
one. -/
theorem checkConsensus_gate_spec (client : ClientEnv) :
    ((checkConsensus client).1 = true ↔
      client.isConsensusEstablished 1 = some true
      ∧ client.isConsensusEstablished 2 = some true
      ∧ client.isConsensusEstablished 3 = some true)
    ∧ (client.isConsensusEstablished 1 ≠ some true → checkConsensus client = (false, 1))
    ∧ (client.isConsensusEstablished 1 = some true →
        client.isConsensusEstablished 2 ≠ some true → checkConsensus client = (false, 2))
    ∧ (client.isConsensusEstablished 1 = some true →
        client.isConsensusEstablished 2 = some true →
        client.isConsensusEstablished 3 ≠ some true → checkConsensus client = (false, 3)) := by
  rcases h1 : client.isConsensusEstablished 1 with _ | b1
  · simp [checkConsensus, consensusAttempts, maxAttempts, h1]
  cases b1 with
  | false => simp [checkConsensus, consensusAttempts, maxAttempts, h1]
  | true =>
    rcases h2 : client.isConsensusEstablished 2 with _ | b2
    · simp [checkConsensus, consensusAttempts, maxAttempts, h1, h2]
    cases b2 with
    | false => simp [checkConsensus, consensusAttempts, maxAttempts, h1, h2]
    | true =>
      rcases h3 : client.isConsensusEstablished 3 with _ | b3
      · simp [checkConsensus, consensusAttempts, maxAttempts, h1, h2, h3]
      cases b3 <;> simp [checkConsensus, consensusAttempts, maxAttempts, h1, h2, h3]

/-- C3 witness: the gate contract at a tick whose three checks all report
established consensus. -/
theorem checkConsensus_gate_spec_witness :
    ((checkConsensus okClient).1 = true ↔
      okClient.isConsensusEstablished 1 = some true
      ∧ okClient.isConsensusEstablished 2 = some true
      ∧ okClient.isConsensusEstablished 3 = some true)
    ∧ (okClient.isConsensusEstablished 1 ≠ some true → checkConsensus okClient = (false, 1))
    ∧ (okClient.isConsensusEstablished 1 = some true →
        okClient.isConsensusEstablished 2 ≠ some true → checkConsensus okClient = (false, 2))
    ∧ (okClient.isConsensusEstablished 1 = some true →
        okClient.isConsensusEstablished 2 = some true →
        okClient.isConsensusEstablished 3 ≠ some true → checkConsensus okClient = (false, 3)) :=
  checkConsensus_gate_spec okClient

/-- C4: when the fetched record has the retired flag set, regardless of any
jail marker, the lifecycle evaluation attempts Reactivate and does not
attempt Activate in the same tick. -/
theorem retired_attempts_reactivate_not_activate (client : ClientEnv) (address : String)
    (m : Metrics) (details : ValidatorDetails)
    (hrec : client.getValidatorByAddress address = some details)
    (hret : details.retired = true) :
    Action.reactivate ∈ (checkAndHandleValidatorStatus client address m).2.2
    ∧ Action.activate ∉ (checkAndHandleValidatorStatus client address m).2.2 := by
  simp [checkAndHandleValidatorStatus, hrec, hret]

/-- C4 witness: the retired branch at a concrete retired-and-jailed record. -/
theorem retired_attempts_reactivate_not_activate_witness :
    Action.reactivate ∈ (checkAndHandleValidatorStatus retiredClient "ADDR" Metrics.init).2.2
    ∧ Action.activate ∉ (checkAndHandleValidatorStatus retiredClient "ADDR" Metrics.init).2.2 :=
  retired_attempts_reactivate_not_activate retiredClient "ADDR" Metrics.init
    { okDetails with retired := true, jailedFrom := some 5 } rfl rfl

/-- C5: the Activate procedure performs its steps in the fixed order
(signing secret, voting secret, account secret, key import, zero-duration
unlock, new-validator transaction, raw-transaction submission); it returns
true exactly when every step succeeds, in which case it sets the activated
gauge to 1 and increments the activation counter; any failure returns false
with both cells unchanged. -/
theorem activateValidator_contract (client : ClientEnv) (address : String) (m : Metrics)
    (res : Bool × Metrics × List Step)
    (hres : res = activateValidator client address m) :
    (res.1 = false → res.2.1.activated = m.activated
        ∧ res.2.1.activatedCounter = m.activatedCounter)
    ∧ (res.1 = true ↔ ∃ sigKey voteKey addressPrivate keyAddress rawTx txHash,
        getPrivateKey client "/keys/signing_key.txt" = some sigKey
        ∧ getVoteKey client "/keys/vote_key.txt" = some voteKey
        ∧ getPrivateKey client "/keys/address.txt" = some addressPrivate
        ∧ client.importRawKey addressPrivate "" = some keyAddress
        ∧ client.unlockAccount address "" 0 = some ()
        ∧ client.sendNewValidatorTransaction address address sigKey voteKey address "" 500 "+0"
            = some rawTx
        ∧ client.sendRawTransaction rawTx = some txHash)
    ∧ (res.1 = true → res.2.1.activated = 1
        ∧ res.2.1.activatedCounter = m.activatedCounter + 1)
    ∧ res.2.2 = activationSteps.take res.2.2.length
    ∧ (res.1 = true → res.2.2 = activationSteps) := by
  subst hres
  unfold activateValidator
  rcases h1 : getPrivateKey client "/keys/signing_key.txt" with _ | sigKey
  · simp [h1, activationSteps]
  rcases h2 : getVoteKey client "/keys/vote_key.txt" with _ | voteKey
  · simp [h1, h2, activationSteps]
  rcases h3 : getPrivateKey client "/keys/address.txt" with _ | addressPrivate
  · simp [h1, h2, h3, activationSteps]
  rcases h4 : client.importRawKey addressPrivate "" with _ | keyAddress
  · simp [h1, h2, h3, h4, activationSteps]
  rcases h5 : client.unlockAccount address "" 0 with _ | u
  · simp [h1, h2, h3, h4, h5, activationSteps]
  rcases h6 : client.sendNewValidatorTransaction address address sigKey voteKey address "" 500 "+0"
    with _ | rawTx
  · simp [h1, h2, h3, h4, h5, h6, activationSteps]
  rcases h7 : client.sendRawTransaction rawTx with _ | txHash
  · simp [h1, h2, h3, h4, h5, h6, h7, activationSteps]
  simp [h1, h2, h3, h4, h5, h6, h7, activationSteps]

/-- C5 witness: the contract at a tick where every step succeeds. -/
theorem activateValidator_contract_witness :
    ((activateValidator okClient "ADDR" Metrics.init).1 = false →
        (activateValidator okClient "ADDR" Metrics.init).2.1.activated = Metrics.init.activated
        ∧ (activateValidator okClient "ADDR" Metrics.init).2.1.activatedCounter
            = Metrics.init.activatedCounter)
    ∧ ((activateValidator okClient "ADDR" Metrics.init).1 = true
        ↔ ∃ sigKey voteKey addressPrivate keyAddress rawTx txHash,
        getPrivateKey okClient "/keys/signing_key.txt" = some sigKey
        ∧ getVoteKey okClient "/keys/vote_key.txt" = some voteKey
        ∧ getPrivateKey okClient "/keys/address.txt" = some addressPrivate
        ∧ okClient.importRawKey addressPrivate "" = some keyAddress
        ∧ okClient.unlockAccount "ADDR" "" 0 = some ()
        ∧ okClient.sendNewValidatorTransaction "ADDR" "ADDR" sigKey voteKey "ADDR" "" 500 "+0"
            = some rawTx
        ∧ okClient.sendRawTransaction rawTx = some txHash)
    ∧ ((activateValidator okClient "ADDR" Metrics.init).1 = true →
        (activateValidator okClient "ADDR" Metrics.init).2.1.activated = 1
        ∧ (activateValidator okClient "ADDR" Metrics.init).2.1.activatedCounter
            = Metrics.init.activatedCounter + 1)
    ∧ (activateValidator okClient "ADDR" Metrics.init).2.2
        = activationSteps.take (activateValidator okClient "ADDR" Metrics.init).2.2.length
    ∧ ((activateValidator okClient "ADDR" Metrics.init).1 = true →
        (activateValidator okClient "ADDR" Metrics.init).2.2 = activationSteps) :=
  activateValidator_contract okClient "ADDR" Metrics.init
    (activateValidator okClient "ADDR" Metrics.init) rfl

/-- C6: on a successful balance fetch the balance check publishes the raw
smallest-unit balance to the balance gauge, returns the whole-unit quotient
balance / 100000, and reports sufficiency exactly when the raw balance is
at least 10^10 smallest units (100000 whole units). -/
theorem checkSufficientBalance_spec (client : ClientEnv) (address : String) (m : Metrics)
    (b : Int) (hb : client.getAccountBalanceByAddress address = some b) :
    (checkSufficientBalance client address m).2 = { m with balanceGauge := b }
    ∧ (checkSufficientBalance client address m).1.2 = (b : ℚ) / 100000
    ∧ ((checkSufficientBalance client address m).1.1 = true ↔ (10000000000 : Int) ≤ b) := by
  refine ⟨?_, ?_, ?_⟩ <;> simp [checkSufficientBalance, hb, balanceInNim_threshold]

/-- C6 witness: the balance check exactly at the activation threshold. -/
theorem checkSufficientBalance_spec_witness :
    (checkSufficientBalance okClient "ADDR" Metrics.init).2
        = { Metrics.init with balanceGauge := 10000000000 }
    ∧ (checkSufficientBalance okClient "ADDR" Metrics.init).1.2
        = ((10000000000 : Int) : ℚ) / 100000
    ∧ ((checkSufficientBalance okClient "ADDR" Metrics.init).1.1 = true
        ↔ (10000000000 : Int) ≤ (10000000000 : Int)) :=
  checkSufficientBalance_spec okClient "ADDR" Metrics.init 10000000000 rfl

/-- C7: both key-file parsers agree with their spec-worded descriptions:
`getPrivateKey` returns the trimmed remainder of the first line starting
with "Private Key:" and errs when the file is unreadable or no such line
exists; `getVoteKey` returns the trimmed line two lines below the first
line containing "Secret Key:" and errs when the file is unreadable or no
"Secret Key:" line with at least two following lines exists. -/
theorem keyFileParsing_matches_spec (client : ClientEnv) (filePath : String) :
    getPrivateKey client filePath = getPrivateKeySpec client filePath
    ∧ getVoteKey client filePath = getVoteKeySpec client filePath := by
  constructor
  · unfold getPrivateKey getPrivateKeySpec
    cases client.readFile filePath
    · rfl
    · exact getPrivateKeyLines_eq_find _
  · unfold getVoteKey getVoteKeySpec
    cases client.readFile filePath
    · rfl
    · exact getVoteKeyAux_eq_spec _ _ 0

/-- C7 witness: both parsers on the concrete vote-key file. -/
theorem keyFileParsing_matches_spec_witness :
    getPrivateKey okClient "/keys/vote_key.txt" = getPrivateKeySpec okClient "/keys/vote_key.txt"
    ∧ getVoteKey okClient "/keys/vote_key.txt" = getVoteKeySpec okClient "/keys/vote_key.txt" :=
  keyFileParsing_matches_spec okClient "/keys/vote_key.txt"

/-- C8: with an unchanged node state whose record is present, not retired and
carries no jail marker, re-running the lifecycle evaluation on the metric
state the first run produced returns exactly the same result, metrics and
(empty) action list: every published value is an absolute gauge write
derived from the node state alone. -/
theorem steady_state_idempotent (client : ClientEnv) (address : String) (m : Metrics)
    (details : ValidatorDetails)
    (hrec : client.getValidatorByAddress address = some details)
    (hret : details.retired = false)
    (hjail : details.jailedFrom = none) :
    checkAndHandleValidatorStatus client address
        ((checkAndHandleValidatorStatus client address m).2.1)
      = checkAndHandleValidatorStatus client address m
    ∧ (checkAndHandleValidatorStatus client address m).2.2 = [] := by
  rcases hbn : client.getCurrentBlockNumber with _ | bn <;>
    cases m <;>
    simp [checkAndHandleValidatorStatus, updateValidatorMetrics, hrec, hret, hjail, hbn]

/-- C8 witness: idempotence at the concrete healthy validator tick. -/
theorem steady_state_idempotent_witness :
    checkAndHandleValidatorStatus okClient "ADDR"
        ((checkAndHandleValidatorStatus okClient "ADDR" Metrics.init).2.1)
      = checkAndHandleValidatorStatus okClient "ADDR" Metrics.init
    ∧ (checkAndHandleValidatorStatus okClient "ADDR" Metrics.init).2.2 = [] :=
  steady_state_idempotent okClient "ADDR" Metrics.init okDetails rfl rfl rfl

/-- C9: every lifecycle evaluation whose record fetch succeeds leaves the
activated gauge at 1 — `updateValidatorMetrics` sets it unconditionally and
no later branch clears it — including for retired records and for jail
markers inside the window, so activated = 1 does not imply the Active
situation. -/
theorem record_fetch_publishes_activated (client : ClientEnv) (address : String)
    (m : Metrics) (details : ValidatorDetails)
    (hrec : client.getValidatorByAddress address = some details) :
    (checkAndHandleValidatorStatus client address m).2.1.activated = 1 := by
  rcases hbn : client.getCurrentBlockNumber with _ | bn <;>
    rcases hjf : details.jailedFrom with _ | jf <;>
    cases hret : details.retired <;>
    simp [checkAndHandleValidatorStatus, hrec, hbn, hjf, hret,
      reActivate_preserves_activated, updateValidatorMetrics, apply_ite Metrics.activated]

/-- C9 witness: the activated gauge is 1 even for a retired and jail-marked
record, a non-Active situation. -/
theorem record_fetch_publishes_activated_witness :
    (checkAndHandleValidatorStatus retiredClient "ADDR" Metrics.init).2.1.activated = 1 :=
  record_fetch_publishes_activated retiredClient "ADDR" Metrics.init
    { okDetails with retired := true, jailedFrom := some 5 } rfl

/-- C10: the lifecycle evaluation returns true exactly when the record fetch
succeeds, the record is not retired, and the block-number query succeeds —
independently of the jail marker and of the discarded results of any
attempted Activate or Reactivate (the right-hand side mentions none of the
action-step oracles). -/
theorem checkStatus_result_iff (client : ClientEnv) (address : String) (m : Metrics) :
    (checkAndHandleValidatorStatus client address m).1 = true
      ↔ ∃ details blockNumber,
          client.getValidatorByAddress address = some details
          ∧ details.retired = false
          ∧ client.getCurrentBlockNumber = some blockNumber := by
  rcases hrec : client.getValidatorByAddress address with _ | details
  · simp [checkAndHandleValidatorStatus, hrec]
  rcases hbn : client.getCurrentBlockNumber with _ | bn
  · cases hret : details.retired <;>
      simp [checkAndHandleValidatorStatus, hrec, hbn, hret]
  cases hret : details.retired <;>
    rcases hjf : details.jailedFrom with _ | jf <;>
    simp [checkAndHandleValidatorStatus, hrec, hbn, hret, hjf]

/-- C10 witness: the characterization at the jailed-within-window tick, where
the evaluation still returns true. -/
theorem checkStatus_result_iff_witness :
    (checkAndHandleValidatorStatus jailClient "ADDR" Metrics.init).1 = true
      ↔ ∃ details blockNumber,
          jailClient.getValidatorByAddress "ADDR" = some details
          ∧ details.retired = false
          ∧ jailClient.getCurrentBlockNumber = some blockNumber :=
  checkStatus_result_iff jailClient "ADDR" Metrics.init

end NimiqActivator
